import Mathlib

/-!
Shallow embedding of the Stacko-Robo inventory backend (`src/backend/server.py`).

The document store is modelled as in-memory lists (`List StoredUser`,
`List Category`, `List Product`); Mongo's `find_one` is `List.find?` (first
match), `insert_one` appends, `update_one` patches the first matching
document.  `float` prices become `Rat`; timestamps and generated ids are
opaque `String` parameters supplied by the caller (the source draws them
from the clock and `uuid4`).  Fallible handlers return the (possibly
unchanged) collection together with `Except HTTPException result`,
mirroring FastAPI's `HTTPException(status_code, detail)`.  External
collaborators (bcrypt via `passlib`, the `jwt` library) are modelled as
injected functions or small spec-modelled definitions, as noted on each.
-/

namespace StackoRobo

/-- Mirrors FastAPI's `HTTPException(status_code=..., detail=...)`. -/
structure HTTPException where
  statusCode : Nat
  detail : String
  deriving Repr, DecidableEq

/-- `JWT_EXPIRATION_HOURS = 24` (server.py line 31). -/
def JWT_EXPIRATION_HOURS : Nat := 24

/-- A user document as stored in `db.users`: the `User` pydantic model's
fields plus the `password_hash` added in `register` (line 150). -/
structure StoredUser where
  id : String
  email : String
  name : String
  created_at : String
  password_hash : String
  deriving Repr, DecidableEq

/-- The `User` response model (lines 33-38): no password hash field.
`model_config = ConfigDict(extra="ignore")` drops unknown keys such as
`password_hash` when a stored document is parsed back. -/
structure User where
  id : String
  email : String
  name : String
  created_at : String
  deriving Repr, DecidableEq

/-- `User(**user)` on a stored document: `extra="ignore"` keeps only the
declared fields, so the password hash is dropped. -/
def toUser (u : StoredUser) : User :=
  { id := u.id, email := u.email, name := u.name, created_at := u.created_at }

/-- The `Category` model (lines 54-59). -/
structure Category where
  id : String
  name : String
  description : Option String
  created_at : String
  deriving Repr, DecidableEq

/-- The `Product` model (lines 65-76). `unit_price : float` is modelled
exactly as `Rat`. -/
structure Product where
  id : String
  name : String
  sku : String
  category : String
  quantity : Int
  unit_price : Rat
  reorder_level : Int
  description : Option String
  created_at : String
  updated_at : String
  deriving Repr, DecidableEq

/-- `ProductCreate` (lines 78-85): `reorder_level: int = 10`, i.e. the
field defaults to 10 when absent from the request body. -/
structure ProductCreate where
  name : String
  sku : String
  category : String
  quantity : Int
  unit_price : Rat
  reorder_level : Int := 10
  description : Option String := none
  deriving Repr, DecidableEq

/-- `ProductUpdate` (lines 87-94): every field optional, defaulting to
`None`; `model_dump` then drops the `None` entries in `update_product`. -/
structure ProductUpdate where
  name : Option String := none
  sku : Option String := none
  category : Option String := none
  quantity : Option Int := none
  unit_price : Option Rat := none
  reorder_level : Option Int := none
  description : Option String := none
  deriving Repr, DecidableEq

/-- `DashboardStats` (lines 96-101). -/
structure DashboardStats where
  total_products : Nat
  total_categories : Nat
  low_stock_count : Nat
  total_stock_value : Rat
  total_quantity : Int
  deriving Repr, DecidableEq

/-! ## Token service

The `jwt` library itself is an external collaborator (not part of this
repository's source), so its encode/decode behaviour is modelled from the
spec (section 4.2): a token carries a subject claim and an expiration, is
signed with a symmetric secret, and verification fails with an
expired-signature error once the expiration time is reached and with an
invalid-token error on a bad signature or malformed input. -/

/-- Modelled from the spec: the payload a token of the external `jwt`
library carries — the `sub` claim (absent when the dict lacks it) and the
`exp` claim (seconds). -/
structure JwtPayload where
  sub : Option String
  exp : Nat
  deriving Repr, DecidableEq

/-- Modelled from the spec: a token of the external `jwt` library is
either a well-formed signed payload or malformed bytes. -/
inductive Jwt where
  | signed (payload : JwtPayload) (sig : String)
  | malformed
  deriving Repr, DecidableEq

/-- Modelled from the spec: the two exception classes of the external
`jwt` library that `get_current_user` distinguishes. -/
inductive JwtError where
  | expiredSignature
  | invalidToken
  deriving Repr, DecidableEq

/-- Modelled from the spec: `jwt.encode(payload, secret, algorithm)` signs
the payload with the symmetric secret. -/
def jwt_encode (payload : JwtPayload) (secret : String) : Jwt :=
  .signed payload secret

/-- Modelled from the spec: `jwt.decode(token, secret, algorithms)` checks
the signature and the `exp` claim against the current time (`now`,
seconds); a token is expired once its expiration time is reached. -/
def jwt_decode (t : Jwt) (secret : String) (now : Nat) : Except JwtError JwtPayload :=
  match t with
  | .malformed => .error .invalidToken
  | .signed payload sig =>
    if sig ≠ secret then .error .invalidToken
    else if payload.exp ≤ now then .error .expiredSignature
    else .ok payload

/-- `create_access_token` (lines 114-119): copies the data (both callers
pass `{"sub": user.id}`, modelled as the optional `sub` claim), sets
`exp = now + 24 hours`, and signs with the process-wide secret. -/
def create_access_token (secret : String) (now : Nat) (sub : Option String) : Jwt :=
  jwt_encode { sub := sub, exp := now + JWT_EXPIRATION_HOURS * 3600 } secret

/-- `get_current_user` (lines 121-136): decode the bearer token, map the
decode failures to 401 responses, require a `sub` claim, then resolve the
user id against `db.users`. -/
def get_current_user (secret : String) (now : Nat) (users : List StoredUser)
    (t : Jwt) : Except HTTPException User :=
  match jwt_decode t secret now with
  | .error .expiredSignature => .error ⟨401, "Token has expired"⟩
  | .error .invalidToken => .error ⟨401, "Could not validate credentials"⟩
  | .ok payload =>
    match payload.sub with
    | none => .error ⟨401, "Invalid authentication credentials"⟩
    | some user_id =>
      match users.find? (fun u => u.id == user_id) with
      | none => .error ⟨401, "User not found"⟩
      | some u => .ok (toUser u)

/-! ## Auth handlers

`pwd_context.hash` / `pwd_context.verify` (passlib bcrypt) are external
collaborators; they are injected as function parameters `hashF` and
`verifyF`, exactly as the handlers use them. -/

/-- `register` (lines 138-155): reject when a user with the email already
exists, otherwise build the `User`, add the password hash to the stored
document, insert it, and return a token plus the hash-free `User`.
Returns the (possibly unchanged) users collection alongside the result. -/
def register (hashF : String → String) (secret : String) (now : Nat)
    (nowIso newId : String) (users : List StoredUser)
    (email password name : String) :
    List StoredUser × Except HTTPException (Jwt × User) :=
  match users.find? (fun u => u.email == email) with
  | some _ => (users, .error ⟨400, "Email already registered"⟩)
  | none =>
    let user : User := { id := newId, email := email, name := name, created_at := nowIso }
    let stored : StoredUser :=
      { id := newId, email := email, name := name, created_at := nowIso,
        password_hash := hashF password }
    (users ++ [stored],
      .ok (create_access_token secret now (some user.id), user))

/-- `login` (lines 157-165): look the email up; when the user is absent
OR the password fails verification, answer with the one generic 401;
otherwise issue a token for the user's id and return the hash-free user. -/
def login (verifyF : String → String → Bool) (secret : String) (now : Nat)
    (users : List StoredUser) (email password : String) :
    Except HTTPException (Jwt × User) :=
  match users.find? (fun u => u.email == email) with
  | none => .error ⟨401, "Invalid email or password"⟩
  | some u =>
    if verifyF password u.password_hash then
      .ok (create_access_token secret now (some u.id), toUser u)
    else .error ⟨401, "Invalid email or password"⟩

/-! ## Product handlers -/

/-- The store query built in `get_products` (lines 192-194): the
`category` filter is added only when the parameter is truthy, so `None`
and `""` both leave the query empty. -/
def categoryQuery (category : Option String) : Product → Bool :=
  match category with
  | some c => if c == "" then fun _ => true else fun p => p.category == c
  | none => fun _ => true

/-- `p["quantity"] <= p["reorder_level"]` (lines 199 and 249). -/
def isLowStock (p : Product) : Bool :=
  p.quantity ≤ p.reorder_level

/-- The fetch step of `get_products`: `db.products.find(query).to_list(1000)`
— the store-side query filters by category only and the result is capped
at 1000 documents. -/
def fetchProducts (products : List Product) (category : Option String) : List Product :=
  (products.filter (categoryQuery category)).take 1000

/-- Python truthiness of the optional `low_stock` query parameter:
`None` and `False` are both falsy. -/
def boolTruthy : Option Bool → Bool
  | none => false
  | some b => b

/-- `get_products` (lines 186-201): fetch with the category query, then,
when `low_stock` is truthy, filter client-side to low-stock products. -/
def get_products (products : List Product) (category : Option String)
    (low_stock : Option Bool) : List Product :=
  let fetched := fetchProducts products category
  if boolTruthy low_stock then fetched.filter isLowStock else fetched

/-- `create_product` (lines 203-211): reject when a product with the SKU
exists, otherwise build the `Product` from the request (fresh id, both
timestamps set to now) and insert it. -/
def create_product (newId nowIso : String) (products : List Product)
    (pc : ProductCreate) : List Product × Except HTTPException Product :=
  match products.find? (fun p => p.sku == pc.sku) with
  | some _ => (products, .error ⟨400, "SKU already exists"⟩)
  | none =>
    let p : Product :=
      { id := newId, name := pc.name, sku := pc.sku, category := pc.category,
        quantity := pc.quantity, unit_price := pc.unit_price,
        reorder_level := pc.reorder_level, description := pc.description,
        created_at := nowIso, updated_at := nowIso }
    (products ++ [p], .ok p)

/-- The `$set` applied by `update_product`: the non-`None` patch fields
plus a refreshed `updated_at` (lines 223-224, 231). -/
def applyPatch (p : Product) (u : ProductUpdate) (nowIso : String) : Product :=
  { p with
    name := u.name.getD p.name,
    sku := u.sku.getD p.sku,
    category := u.category.getD p.category,
    quantity := u.quantity.getD p.quantity,
    unit_price := u.unit_price.getD p.unit_price,
    reorder_level := u.reorder_level.getD p.reorder_level,
    description := match u.description with
      | some d => some d
      | none => p.description,
    updated_at := nowIso }

/-- Mongo's `update_one`: patch the first document matching the id,
leave the rest untouched. -/
def updateFirst (products : List Product) (product_id : String)
    (f : Product → Product) : List Product :=
  match products with
  | [] => []
  | p :: rest =>
    if p.id == product_id then f p :: rest
    else p :: updateFirst rest product_id f

/-- `update_product` (lines 213-234): 404 when the id is absent; when the
patch carries a SKU differing from the current one, reject if any other
product holds that SKU; otherwise `$set` the non-null patch fields plus
`updated_at` and return the re-fetched document.  (The re-fetch cannot
miss after a successful find; the `none` branch models the uncaught
`Product(**None)` crash and is proved unreachable below.) -/
def update_product (nowIso : String) (products : List Product)
    (product_id : String) (u : ProductUpdate) :
    List Product × Except HTTPException Product :=
  match products.find? (fun p => p.id == product_id) with
  | none => (products, .error ⟨404, "Product not found"⟩)
  | some existing =>
    let skuConflict : Bool :=
      match u.sku with
      | some s => s != existing.sku && products.any (fun p => p.sku == s && p.id != product_id)
      | none => false
    if skuConflict then
      (products, .error ⟨400, "SKU already exists"⟩)
    else
      let products' := updateFirst products product_id (fun p => applyPatch p u nowIso)
      match products'.find? (fun p => p.id == product_id) with
      | none => (products', .error ⟨500, "Internal Server Error"⟩)
      | some updated => (products', .ok updated)

/-- `get_dashboard_stats` (lines 243-259): fetch all products (capped at
1000), then compute the four aggregates in-process. -/
def get_dashboard_stats (products : List Product) (categories_count : Nat) :
    DashboardStats :=
  let fetched := products.take 1000
  { total_products := fetched.length,
    total_categories := categories_count,
    low_stock_count := fetched.countP isLowStock,
    total_stock_value := (fetched.map (fun p => (p.quantity : Rat) * p.unit_price)).sum,
    total_quantity := (fetched.map (fun p => p.quantity)).sum }

/-- The fixed category catalog inserted by `seed_data` (lines 284-290);
`freshId k` stands for the k-th `uuid4()` drawn while building the two
lists, `nowIso` for the timestamps. -/
def seedCategories (freshId : Nat → String) (nowIso : String) : List Category :=
  [ { id := freshId 0, name := "Electronics", description := some "Electronic devices and accessories", created_at := nowIso },
    { id := freshId 1, name := "Furniture", description := some "Office and home furniture", created_at := nowIso },
    { id := freshId 2, name := "Stationery", description := some "Office supplies and stationery", created_at := nowIso },
    { id := freshId 3, name := "Clothing", description := some "Apparel and accessories", created_at := nowIso },
    { id := freshId 4, name := "Food & Beverages", description := some "Food items and drinks", created_at := nowIso } ]

/-- The fixed product catalog inserted by `seed_data` (lines 293-304). -/
def seedProducts (freshId : Nat → String) (nowIso : String) : List Product :=
  [ { id := freshId 5, name := "Laptop Dell XPS 15", sku := "ELEC-001", category := "Electronics", quantity := 25, unit_price := 1299.99, reorder_level := 10, description := some "High-performance laptop", created_at := nowIso, updated_at := nowIso },
    { id := freshId 6, name := "Wireless Mouse", sku := "ELEC-002", category := "Electronics", quantity := 150, unit_price := 29.99, reorder_level := 50, description := some "Ergonomic wireless mouse", created_at := nowIso, updated_at := nowIso },
    { id := freshId 7, name := "Office Chair Premium", sku := "FURN-001", category := "Furniture", quantity := 8, unit_price := 299.99, reorder_level := 15, description := some "Ergonomic office chair", created_at := nowIso, updated_at := nowIso },
    { id := freshId 8, name := "Standing Desk", sku := "FURN-002", category := "Furniture", quantity := 12, unit_price := 499.99, reorder_level := 10, description := some "Adjustable standing desk", created_at := nowIso, updated_at := nowIso },
    { id := freshId 9, name := "Notebook A4", sku := "STAT-001", category := "Stationery", quantity := 500, unit_price := 3.99, reorder_level := 100, description := some "Ruled notebook", created_at := nowIso, updated_at := nowIso },
    { id := freshId 10, name := "Ballpoint Pens (Pack of 10)", sku := "STAT-002", category := "Stationery", quantity := 5, unit_price := 5.99, reorder_level := 50, description := some "Blue ink pens", created_at := nowIso, updated_at := nowIso },
    { id := freshId 11, name := "Business Shirt", sku := "CLTH-001", category := "Clothing", quantity := 45, unit_price := 49.99, reorder_level := 20, description := some "Formal business shirt", created_at := nowIso, updated_at := nowIso },
    { id := freshId 12, name := "Coffee Beans (1kg)", sku := "FOOD-001", category := "Food & Beverages", quantity := 3, unit_price := 24.99, reorder_level := 20, description := some "Premium arabica beans", created_at := nowIso, updated_at := nowIso },
    { id := freshId 13, name := "Bottled Water (24 pack)", sku := "FOOD-002", category := "Food & Beverages", quantity := 80, unit_price := 8.99, reorder_level := 30, description := some "Natural spring water", created_at := nowIso, updated_at := nowIso },
    { id := freshId 14, name := "USB-C Cable", sku := "ELEC-003", category := "Electronics", quantity := 200, unit_price := 12.99, reorder_level := 80, description := some "2m USB-C charging cable", created_at := nowIso, updated_at := nowIso } ]

/-- `seed_data` (lines 278-307): when `db.categories.count_documents({})`
is positive, answer "Data already seeded" and touch nothing; otherwise
`insert_many` the 5 categories and the 10 products. -/
def seed_data (freshId : Nat → String) (nowIso : String)
    (categories : List Category) (products : List Product) :
    (List Category × List Product) × String :=
  if 0 < categories.length then
    ((categories, products), "Data already seeded")
  else
    ((categories ++ seedCategories freshId nowIso,
      products ++ seedProducts freshId nowIso),
      "Sample data seeded successfully")

/-! ## Helper lemmas -/

theorem updateFirst_length (l : List Product) (pid : String) (f : Product → Product) :
    (updateFirst l pid f).length = l.length := by
  induction l with
  | nil => rfl
  | cons p rest ih =>
    unfold updateFirst
    by_cases hp : (p.id == pid) = true
    · simp [hp]
    · simp only [Bool.not_eq_true] at hp
      simp [hp, ih]

theorem find?_updateFirst (l : List Product) (pid : String) (f : Product → Product)
    (hf : ∀ p, (f p).id = p.id) (existing : Product)
    (h : l.find? (fun p => p.id == pid) = some existing) :
    (updateFirst l pid f).find? (fun p => p.id == pid) = some (f existing) := by
  induction l with
  | nil => simp at h
  | cons q rest ih =>
    by_cases hq : (q.id == pid) = true
    · simp only [List.find?_cons, hq] at h
      injection h with h
      unfold updateFirst
      rw [if_pos hq, ← h]
      have hfq : ((f q).id == pid) = true := by rw [hf q]; exact hq
      simp only [List.find?_cons, hfq]
    · simp only [Bool.not_eq_true] at hq
      simp only [List.find?_cons, hq] at h
      unfold updateFirst
      rw [if_neg (by simp [hq])]
      simp only [List.find?_cons, hq]
      exact ih h

theorem updateFirst_filter_other (l : List Product) (pid : String)
    (f : Product → Product) (hf : ∀ p, (f p).id = p.id) :
    (updateFirst l pid f).filter (fun p => p.id != pid) =
      l.filter (fun p => p.id != pid) := by
  induction l with
  | nil => rfl
  | cons q rest ih =>
    unfold updateFirst
    by_cases hq : (q.id == pid) = true
    · rw [if_pos hq]
      have heq : q.id = pid := by simpa using hq
      have h1 : ((f q).id != pid) = false := by simp [hf q, heq]
      have h2 : (q.id != pid) = false := by simp [heq]
      simp [List.filter_cons, h1, h2]
    · simp only [Bool.not_eq_true] at hq
      rw [if_neg (by simp [hq])]
      have h1 : (q.id != pid) = true := by simp [bne, hq]
      simp [List.filter_cons, h1, ih]

theorem mem_updateFirst (l : List Product) (pid : String) (f : Product → Product)
    (q : Product) (hq : q ∈ updateFirst l pid f) :
    q ∈ l ∨ ∃ p ∈ l, q = f p := by
  induction l with
  | nil => simp [updateFirst] at hq
  | cons p rest ih =>
    unfold updateFirst at hq
    by_cases hp : (p.id == pid) = true
    · rw [if_pos hp] at hq
      rcases List.mem_cons.mp hq with h | h
      · exact Or.inr ⟨p, List.mem_cons_self _ _, h⟩
      · exact Or.inl (List.mem_cons_of_mem _ h)
    · simp only [Bool.not_eq_true] at hp
      rw [if_neg (by simp [hp])] at hq
      rcases List.mem_cons.mp hq with h | h
      · exact Or.inl (h ▸ List.mem_cons_self _ _)
      · rcases ih h with h' | ⟨r, hr, hqr⟩
        · exact Or.inl (List.mem_cons_of_mem _ h')
        · exact Or.inr ⟨r, List.mem_cons_of_mem _ hr, hqr⟩

theorem applyPatch_id (p : Product) (u : ProductUpdate) (nowIso : String) :
    (applyPatch p u nowIso).id = p.id := rfl

/-! ## Claim theorems -/

/-- C10: in `get_products`, passing `low_stock = some false` yields exactly
the same result as omitting the parameter, and passing `category = some ""`
yields exactly the same result as omitting the category filter, because
both parameters are tested for Python truthiness rather than presence. -/
theorem C10_falsy_params_same_as_absent (products : List Product)
    (category : Option String) (low_stock : Option Bool) :
    get_products products category (some false) = get_products products category none ∧
    get_products products (some "") low_stock = get_products products none low_stock := by
  constructor
  · rfl
  · simp [get_products, fetchProducts, categoryQuery]

/-- C7: `get_products` with `lowStock = true` returns exactly the fetched
(category-matching, capped) products whose quantity is at most their
reorder level — the result is the post-fetch low-stock filter of the
fetched list, and membership in the result is equivalent to membership in
the fetched list plus `quantity ≤ reorder_level`. -/
theorem C7_low_stock_exact_subset (products : List Product)
    (category : Option String) :
    get_products products category (some true) =
      (fetchProducts products category).filter isLowStock ∧
    ∀ p : Product, p ∈ get_products products category (some true) ↔
      (p ∈ fetchProducts products category ∧ p.quantity ≤ p.reorder_level) := by
  refine ⟨rfl, fun p => ?_⟩
  rw [show get_products products category (some true) =
      (fetchProducts products category).filter isLowStock from rfl]
  rw [List.mem_filter]
  simp [isLowStock]

/-- Example products of the spec's Stats test: (qty 25, price 1299.99) and
(qty 5, price 24.99). -/
def c8Products : List Product :=
  [ { id := "p1", name := "Laptop", sku := "E1", category := "Electronics",
      quantity := 25, unit_price := 1299.99, reorder_level := 10,
      description := none, created_at := "t", updated_at := "t" },
    { id := "p2", name := "Coffee", sku := "F1", category := "Food",
      quantity := 5, unit_price := 24.99, reorder_level := 20,
      description := none, created_at := "t", updated_at := "t" } ]

/-- C8: `get_dashboard_stats` returns the four aggregates over the fetched
(capped) product list — count, low-stock count (quantity ≤ reorder level),
Σ quantity×unitPrice and Σ quantity — and on the spec's example pair it
yields totalQuantity 30 and totalStockValue 25·1299.99 + 5·24.99. -/
theorem C8_dashboard_aggregates (products : List Product) (categories_count : Nat) :
    ((get_dashboard_stats products categories_count).total_products =
        (products.take 1000).length ∧
      (get_dashboard_stats products categories_count).total_categories = categories_count ∧
      (get_dashboard_stats products categories_count).low_stock_count =
        ((products.take 1000).filter (fun p => p.quantity ≤ p.reorder_level)).length ∧
      (get_dashboard_stats products categories_count).total_stock_value =
        ((products.take 1000).map (fun p => (p.quantity : Rat) * p.unit_price)).sum ∧
      (get_dashboard_stats products categories_count).total_quantity =
        ((products.take 1000).map (fun p => p.quantity)).sum) ∧
    ((get_dashboard_stats c8Products 0).total_quantity = 30 ∧
      (get_dashboard_stats c8Products 0).total_stock_value =
        25 * (1299.99 : Rat) + 5 * (24.99 : Rat)) := by
  refine ⟨⟨rfl, rfl, ?_, rfl, rfl⟩, by decide, ?_⟩
  · rw [show (get_dashboard_stats products categories_count).low_stock_count =
        (products.take 1000).countP isLowStock from rfl]
    rw [List.countP_eq_length_filter]
    rfl
  · norm_num [get_dashboard_stats, c8Products, isLowStock]

/-- C4: `login` answers the one generic 401 "Invalid email or password"
both when no user carries the requested email and when the stored user's
hash does not verify — the two failures are the very same response value,
so callers cannot distinguish them — and on a verifying password it
returns a token for the user's id together with the hash-free user. -/
theorem C4_login_single_generic_error
    (verifyF : String → String → Bool) (secret : String) (now : Nat)
    (users : List StoredUser) (email password : String) :
    ((∀ u ∈ users, u.email ≠ email) →
      login verifyF secret now users email password =
        .error ⟨401, "Invalid email or password"⟩) ∧
    (∀ u, users.find? (fun x => x.email == email) = some u →
      verifyF password u.password_hash = false →
      login verifyF secret now users email password =
        .error ⟨401, "Invalid email or password"⟩) ∧
    (∀ u, users.find? (fun x => x.email == email) = some u →
      verifyF password u.password_hash = true →
      login verifyF secret now users email password =
        .ok (create_access_token secret now (some u.id), toUser u)) := by
  refine ⟨fun h => ?_, fun u hu hv => ?_, fun u hu hv => ?_⟩
  · have hnone : users.find? (fun x => x.email == email) = none := by
      rw [List.find?_eq_none]
      intro x hx
      simpa using h x hx
    simp [login, hnone]
  · simp [login, hu, hv]
  · simp [login, hu, hv]

/-- Witness for C4: with an empty user collection, logging in produces the
generic 401. -/
theorem C4_witness :
    login (fun p h => p == h) "sec" 0 [] "a@b.c" "pw" =
      .error ⟨401, "Invalid email or password"⟩ :=
  (C4_login_single_generic_error (fun p h => p == h) "sec" 0 [] "a@b.c" "pw").1
    (by intro u hu; simp at hu)

/-- C5: `register` fails with the 400 duplicate-email response and leaves
the users collection unchanged when the email is taken (so a second
registration with the same email fails); otherwise it appends a stored
user carrying the password hash and returns a token plus the hash-free
user; and `toUser` — the only shape in which any endpoint returns a user —
is independent of the stored password hash. -/
theorem C5_register_duplicate_email
    (hashF : String → String) (secret : String) (now : Nat)
    (nowIso newId : String) (users : List StoredUser)
    (email password name : String) :
    ((∃ u ∈ users, u.email = email) →
      register hashF secret now nowIso newId users email password name =
        (users, .error ⟨400, "Email already registered"⟩)) ∧
    ((∀ u ∈ users, u.email ≠ email) →
      register hashF secret now nowIso newId users email password name =
        (users ++ [{ id := newId, email := email, name := name,
                     created_at := nowIso, password_hash := hashF password }],
          .ok (create_access_token secret now (some newId),
               { id := newId, email := email, name := name, created_at := nowIso }))) ∧
    ((∀ u ∈ users, u.email ≠ email) →
      ∀ hashF' secret' now' nowIso' newId' password' name',
        register hashF' secret' now' nowIso' newId'
            (register hashF secret now nowIso newId users email password name).1
            email password' name' =
          ((register hashF secret now nowIso newId users email password name).1,
            .error ⟨400, "Email already registered"⟩)) ∧
    (∀ (s : StoredUser) (h h' : String),
      toUser { s with password_hash := h } = toUser { s with password_hash := h' }) := by
  have hcase : ∀ hF sec n nIso nId pw nm,
      (∀ u ∈ users, u.email ≠ email) →
      register hF sec n nIso nId users email pw nm =
        (users ++ [{ id := nId, email := email, name := nm,
                     created_at := nIso, password_hash := hF pw }],
          .ok (create_access_token sec n (some nId),
               { id := nId, email := email, name := nm, created_at := nIso })) := by
    intro hF sec n nIso nId pw nm h
    have hnone : users.find? (fun u => u.email == email) = none := by
      rw [List.find?_eq_none]
      intro x hx
      simpa using h x hx
    simp [register, hnone]
  have hdup : ∀ (l : List StoredUser) (hF : String → String) sec n nIso nId pw nm,
      (∃ x ∈ l, x.email = email) →
      register hF sec n nIso nId l email pw nm =
        (l, .error ⟨400, "Email already registered"⟩) := by
    intro l hF sec n nIso nId pw nm hex
    obtain ⟨x, hx, he⟩ := hex
    have hsome : (l.find? (fun u => u.email == email)).isSome := by
      rw [List.find?_isSome]
      exact ⟨x, hx, by simp [he]⟩
    rcases hf : l.find? (fun u => u.email == email) with _ | v
    · rw [hf] at hsome; simp at hsome
    · simp [register, hf]
  refine ⟨hdup users hashF secret now nowIso newId password name,
    hcase hashF secret now nowIso newId password name,
    fun h hashF' secret' now' nowIso' newId' password' name' => ?_, fun s h h' => rfl⟩
  rw [hcase hashF secret now nowIso newId password name h]
  exact hdup _ hashF' secret' now' nowIso' newId' password' name'
    ⟨_, List.mem_append_right _ (List.mem_singleton_self _), rfl⟩

/-- Witness for C5: registering on an empty collection stores the hash and
returns the hash-free user, and a second registration with the same email
is rejected with the 400 duplicate-email response. -/
theorem C5_witness :
    register (fun p => p ++ "#h") "sec" 0 "t0" "u1" [] "a@b.c" "pw" "Al" =
      ([{ id := "u1", email := "a@b.c", name := "Al", created_at := "t0",
          password_hash := "pw" ++ "#h" }],
        .ok (create_access_token "sec" 0 (some "u1"),
             { id := "u1", email := "a@b.c", name := "Al", created_at := "t0" })) ∧
    register (fun p => p ++ "#h") "sec" 1 "t1" "u2"
        (register (fun p => p ++ "#h") "sec" 0 "t0" "u1" [] "a@b.c" "pw" "Al").1
        "a@b.c" "pw2" "Bo" =
      ((register (fun p => p ++ "#h") "sec" 0 "t0" "u1" [] "a@b.c" "pw" "Al").1,
        .error ⟨400, "Email already registered"⟩) :=
  ⟨(C5_register_duplicate_email (fun p => p ++ "#h") "sec" 0 "t0" "u1" [] "a@b.c" "pw" "Al").2.1
      (by intro u hu; simp at hu),
   (C5_register_duplicate_email (fun p => p ++ "#h") "sec" 0 "t0" "u1" [] "a@b.c" "pw" "Al").2.2.1
      (by intro u hu; simp at hu) (fun p => p ++ "#h") "sec" 1 "t1" "u2" "pw2" "Bo"⟩

/-- C3: `create_product` fails with the 400 duplicate-SKU response when a
stored product already carries the requested SKU; `update_product` fails
the same way when the patch carries a SKU that differs from the product's
current one and some other product holds it; and patching a product with
its own current SKU passes the uniqueness check and succeeds. -/
theorem C3_sku_uniqueness
    (newId nowIso now : String) (products : List Product)
    (pc : ProductCreate) (pid : String) (u : ProductUpdate) :
    ((∃ p ∈ products, p.sku = pc.sku) →
      create_product newId nowIso products pc =
        (products, .error ⟨400, "SKU already exists"⟩)) ∧
    (∀ existing s, products.find? (fun p => p.id == pid) = some existing →
      u.sku = some s → s ≠ existing.sku →
      (∃ p ∈ products, p.sku = s ∧ p.id ≠ pid) →
      update_product now products pid u =
        (products, .error ⟨400, "SKU already exists"⟩)) ∧
    (∀ existing, products.find? (fun p => p.id == pid) = some existing →
      u.sku = some existing.sku →
      (update_product now products pid u).2 = .ok (applyPatch existing u now)) := by
  refine ⟨fun h => ?_, fun existing s hfind hsku hne hother => ?_, fun existing hfind hsku => ?_⟩
  · obtain ⟨p, hp, he⟩ := h
    have hsome : (products.find? (fun p => p.sku == pc.sku)).isSome := by
      rw [List.find?_isSome]
      exact ⟨p, hp, by simp [he]⟩
    rcases hf : products.find? (fun p => p.sku == pc.sku) with _ | v
    · rw [hf] at hsome; simp at hsome
    · simp [create_product, hf]
  · obtain ⟨p, hp, hps, hpid⟩ := hother
    have hconf : (s != existing.sku &&
        products.any (fun p => p.sku == s && p.id != pid)) = true := by
      rw [Bool.and_eq_true, List.any_eq_true]
      exact ⟨by simp [bne, hne], p, hp, by simp [hps, bne, hpid]⟩
    simp [update_product, hfind, hsku, hconf]
  · have hconf : (existing.sku != existing.sku &&
        products.any (fun p => p.sku == existing.sku && p.id != pid)) = false := by
      simp
    have hre := find?_updateFirst products pid (fun p => applyPatch p u now)
      (fun p => applyPatch_id p u now) existing hfind
    simp [update_product, hfind, hsku, hconf, hre]

/-- Witness for C3: creating a product whose SKU is already stored is
rejected with the 400 duplicate-SKU response. -/
theorem C3_witness :
    create_product "i2" "t1"
        [{ id := "i1", name := "A", sku := "S", category := "C", quantity := 1,
           unit_price := 2, reorder_level := 3, description := none,
           created_at := "t0", updated_at := "t0" }]
        { name := "B", sku := "S", category := "C", quantity := 4, unit_price := 5 } =
      ([{ id := "i1", name := "A", sku := "S", category := "C", quantity := 1,
          unit_price := 2, reorder_level := 3, description := none,
          created_at := "t0", updated_at := "t0" }],
        .error ⟨400, "SKU already exists"⟩) :=
  (C3_sku_uniqueness "i2" "t1" "t1"
      [{ id := "i1", name := "A", sku := "S", category := "C", quantity := 1,
         unit_price := 2, reorder_level := 3, description := none,
         created_at := "t0", updated_at := "t0" }]
      { name := "B", sku := "S", category := "C", quantity := 4, unit_price := 5 }
      "z" {}).1
    ⟨_, List.mem_singleton_self _, rfl⟩

/-- C2: a successful `update_product` yields a product whose patched
fields take the patch's values, whose absent/null fields keep their
previous values, whose `updated_at` is refreshed to now, and whose id and
`created_at` are untouched; products with a different id are left exactly
as they were and the collection keeps its length. -/
theorem C2_update_product_frame
    (nowIso : String) (products : List Product) (pid : String) (u : ProductUpdate)
    (existing : Product)
    (hfind : products.find? (fun p => p.id == pid) = some existing)
    (updated : Product)
    (hok : (update_product nowIso products pid u).2 = .ok updated) :
    updated.name = u.name.getD existing.name ∧
    updated.sku = u.sku.getD existing.sku ∧
    updated.category = u.category.getD existing.category ∧
    updated.quantity = u.quantity.getD existing.quantity ∧
    updated.unit_price = u.unit_price.getD existing.unit_price ∧
    updated.reorder_level = u.reorder_level.getD existing.reorder_level ∧
    updated.description = (match u.description with
      | some d => some d
      | none => existing.description) ∧
    updated.updated_at = nowIso ∧
    updated.id = existing.id ∧
    updated.created_at = existing.created_at ∧
    (update_product nowIso products pid u).1.filter (fun p => p.id != pid) =
      products.filter (fun p => p.id != pid) ∧
    (update_product nowIso products pid u).1.length = products.length := by
  have hre := find?_updateFirst products pid (fun p => applyPatch p u nowIso)
    (fun p => applyPatch_id p u nowIso) existing hfind
  by_cases hconf : (match u.sku with
      | some s => (s != existing.sku && products.any fun p => p.sku == s && p.id != pid)
      | none => false) = true
  · exfalso
    simp only [update_product, hfind, hconf, if_true] at hok
    simp at hok
  · rw [Bool.not_eq_true] at hconf
    have hres : update_product nowIso products pid u =
        (updateFirst products pid (fun p => applyPatch p u nowIso),
          .ok (applyPatch existing u nowIso)) := by
      simp [update_product, hfind, hconf, hre]
    rw [hres] at hok
    have hupd : updated = applyPatch existing u nowIso := by
      simpa using hok.symm
    subst hupd
    rw [hres]
    exact ⟨rfl, rfl, rfl, rfl, rfl, rfl, rfl, rfl, rfl, rfl,
      updateFirst_filter_other products pid _ (fun p => applyPatch_id p u nowIso),
      updateFirst_length products pid _⟩

/-- The concrete product, patch and patched result used by the C2
witness. -/
def c2Before : Product :=
  { id := "a", name := "n", sku := "s", category := "c", quantity := 1,
    unit_price := 2, reorder_level := 3, description := none,
    created_at := "t0", updated_at := "t0" }

def c2Patch : ProductUpdate := { quantity := some 7 }

def c2After : Product := { c2Before with quantity := 7, updated_at := "t1" }

/-- Witness for C2: patching only the quantity leaves every other field in
place, refreshes `updated_at`, and preserves the rest of the store. -/
theorem C2_witness :
    c2After.name = c2Patch.name.getD c2Before.name ∧
    c2After.sku = c2Patch.sku.getD c2Before.sku ∧
    c2After.category = c2Patch.category.getD c2Before.category ∧
    c2After.quantity = c2Patch.quantity.getD c2Before.quantity ∧
    c2After.unit_price = c2Patch.unit_price.getD c2Before.unit_price ∧
    c2After.reorder_level = c2Patch.reorder_level.getD c2Before.reorder_level ∧
    c2After.description = (match c2Patch.description with
      | some d => some d
      | none => c2Before.description) ∧
    c2After.updated_at = "t1" ∧
    c2After.id = c2Before.id ∧
    c2After.created_at = c2Before.created_at ∧
    (update_product "t1" [c2Before] "a" c2Patch).1.filter (fun p => p.id != "a") =
      [c2Before].filter (fun p => p.id != "a") ∧
    (update_product "t1" [c2Before] "a" c2Patch).1.length = [c2Before].length :=
  C2_update_product_frame "t1" [c2Before] "a" c2Patch c2Before (by decide)
    c2After (by rfl)

/-- C6: a token issued for a user id verifies to that user at any instant
strictly before issuance + 24h and fails with the 401 expired response at
or after that instant; a token with a wrong signature or malformed bytes,
and a token whose `sub` claim is missing, fail with the 401 invalid
responses (the spec's `TokenInvalid` family). -/
theorem C6_token_verification
    (secret : String) (issue now : Nat) (uid : String) (users : List StoredUser) :
    (∀ u, users.find? (fun x => x.id == uid) = some u →
      now < issue + JWT_EXPIRATION_HOURS * 3600 →
      get_current_user secret now users (create_access_token secret issue (some uid)) =
        .ok (toUser u) ∧ u.id = uid) ∧
    (issue + JWT_EXPIRATION_HOURS * 3600 ≤ now →
      get_current_user secret now users (create_access_token secret issue (some uid)) =
        .error ⟨401, "Token has expired"⟩) ∧
    (∀ (payload : JwtPayload) (sig : String), sig ≠ secret →
      get_current_user secret now users (.signed payload sig) =
        .error ⟨401, "Could not validate credentials"⟩) ∧
    (get_current_user secret now users .malformed =
      .error ⟨401, "Could not validate credentials"⟩) ∧
    (now < issue + JWT_EXPIRATION_HOURS * 3600 →
      get_current_user secret now users (create_access_token secret issue none) =
        .error ⟨401, "Invalid authentication credentials"⟩) := by
  refine ⟨fun u hu hlt => ⟨?_, ?_⟩, fun hge => ?_, fun payload sig hne => ?_, ?_,
    fun hlt => ?_⟩
  · have hexp : ¬ (issue + JWT_EXPIRATION_HOURS * 3600 ≤ now) := not_le.mpr hlt
    simp [get_current_user, jwt_decode, create_access_token, jwt_encode, hexp, hu]
  · simpa using List.find?_some hu
  · simp [get_current_user, jwt_decode, create_access_token, jwt_encode, hge]
  · simp [get_current_user, jwt_decode, hne]
  · simp [get_current_user, jwt_decode]
  · have hexp : ¬ (issue + JWT_EXPIRATION_HOURS * 3600 ≤ now) := not_le.mpr hlt
    simp [get_current_user, jwt_decode, create_access_token, jwt_encode, hexp]

/-- Witness for C6: a token issued at time 0 is rejected as expired at
time 86400 (exactly 24 hours later). -/
theorem C6_witness :
    get_current_user "s" 86400 [] (create_access_token "s" 0 (some "u")) =
      .error ⟨401, "Token has expired"⟩ :=
  (C6_token_verification "s" 0 86400 "u" []).2.1 (by norm_num [JWT_EXPIRATION_HOURS])

/-- C9: `seed_data` is a no-op answering "Data already seeded" whenever a
category exists; from an empty category collection it inserts exactly 5
categories and 10 products; and a second call right after any first call
returns "Data already seeded" and leaves both collections exactly as the
first call left them. -/
theorem C9_seed_idempotent
    (freshId freshId' : Nat → String) (nowIso nowIso' : String)
    (categories : List Category) (products : List Product) :
    (0 < categories.length →
      seed_data freshId nowIso categories products =
        ((categories, products), "Data already seeded")) ∧
    (categories.length = 0 →
      (seed_data freshId nowIso categories products).1.1.length = 5 ∧
      (seed_data freshId nowIso categories products).1.2.length = products.length + 10 ∧
      (seed_data freshId nowIso categories products).2 = "Sample data seeded successfully") ∧
    (seed_data freshId' nowIso'
        (seed_data freshId nowIso categories products).1.1
        (seed_data freshId nowIso categories products).1.2 =
      ((seed_data freshId nowIso categories products).1, "Data already seeded")) := by
  refine ⟨fun hpos => ?_, fun hzero => ?_, ?_⟩
  · simp [seed_data, hpos]
  · have hneg : ¬ 0 < categories.length := by omega
    have hnil : categories = [] := List.length_eq_zero.mp hzero
    subst hnil
    refine ⟨?_, ?_, ?_⟩ <;>
      simp [seed_data, seedCategories, seedProducts]
  · by_cases hpos : 0 < categories.length
    · simp [seed_data, hpos]
    · have h5 : 0 < (categories ++ seedCategories freshId nowIso).length := by
        rw [List.length_append]
        have h5' : (seedCategories freshId nowIso).length = 5 := rfl
        omega
      simp [seed_data, hpos, h5, seedCategories]

/-- Witness for C9: seeding an empty store yields 5 categories, 10
products and the success message. -/
theorem C9_witness :
    (seed_data (fun k => toString k) "t" [] []).1.1.length = 5 ∧
    (seed_data (fun k => toString k) "t" [] []).1.2.length = ([] : List Product).length + 10 ∧
    (seed_data (fun k => toString k) "t" [] []).2 = "Sample data seeded successfully" :=
  (C9_seed_idempotent (fun k => toString k) (fun k => toString k) "t" "t" [] []).2.1 rfl

/-- A creation request carrying negative quantity, price and reorder
level; the handlers validate none of them. -/
def c1NegativeInput : ProductCreate :=
  { name := "N", sku := "S", category := "C", quantity := -1,
    unit_price := -1, reorder_level := -1 }

/-- C1 counterexample: `create_product` accepts a request with negative
quantity, unit price and reorder level and stores the product verbatim, so
non-negativity of these fields is not an invariant preserved by every
operation. -/
theorem C1_counterexample :
    (create_product "i1" "t1" [] c1NegativeInput).2.isOk = true ∧
    (create_product "i1" "t1" [] c1NegativeInput).1.any
      (fun p => p.quantity < 0 && p.unit_price < 0 && p.reorder_level < 0) = true := by
  decide

/-- `quantity ≥ 0 ∧ unit_price ≥ 0 ∧ reorder_level ≥ 0` for a stored
product. -/
def ProductNonneg (p : Product) : Prop :=
  0 ≤ p.quantity ∧ 0 ≤ p.unit_price ∧ 0 ≤ p.reorder_level

/-- C1 (amended): the handlers store the numeric fields exactly as
supplied, so non-negativity is preserved by `create_product` and
`update_product` only under the assumption that every numeric value in the
request is itself non-negative; the reorder level does default to 10 when
absent at creation. -/
theorem C1_nonneg_preserved_given_nonneg_inputs
    (newId nowIso now pid : String) (products : List Product)
    (pc : ProductCreate) (u : ProductUpdate)
    (hstate : ∀ p ∈ products, ProductNonneg p) :
    (0 ≤ pc.quantity → 0 ≤ pc.unit_price → 0 ≤ pc.reorder_level →
      ∀ p ∈ (create_product newId nowIso products pc).1, ProductNonneg p) ∧
    ((∀ q, u.quantity = some q → 0 ≤ q) →
      (∀ x, u.unit_price = some x → 0 ≤ x) →
      (∀ r, u.reorder_level = some r → 0 ≤ r) →
      ∀ p ∈ (update_product now products pid u).1, ProductNonneg p) ∧
    (∀ n s c (q : Int) (pr : Rat),
      ({ name := n, sku := s, category := c, quantity := q, unit_price := pr } :
        ProductCreate).reorder_level = 10) := by
  refine ⟨fun h1 h2 h3 p hp => ?_, fun hq hpr hr p hp => ?_, fun n s c q pr => rfl⟩
  · rcases hf : products.find? (fun x => x.sku == pc.sku) with _ | v
    · simp only [create_product, hf] at hp
      rcases List.mem_append.mp hp with h | h
      · exact hstate p h
      · rw [List.mem_singleton.mp h]
        exact ⟨h1, h2, h3⟩
    · simp only [create_product, hf] at hp
      exact hstate p hp
  · rcases hfind : products.find? (fun x => x.id == pid) with _ | existing
    · simp only [update_product, hfind] at hp
      exact hstate p hp
    · by_cases hconf : (match u.sku with
          | some s => (s != existing.sku && products.any fun x => x.sku == s && x.id != pid)
          | none => false) = true
      · simp only [update_product, hfind, hconf, if_true] at hp
        exact hstate p hp
      · rw [Bool.not_eq_true] at hconf
        have hre := find?_updateFirst products pid (fun x => applyPatch x u now)
          (fun x => applyPatch_id x u now) existing hfind
        simp only [update_product, hfind, hconf, if_false, hre] at hp
        rcases mem_updateFirst products pid _ p hp with h | ⟨x, hx, hpx⟩
        · exact hstate p h
        · subst hpx
          obtain ⟨hx1, hx2, hx3⟩ := hstate x hx
          refine ⟨?_, ?_, ?_⟩
          · rcases hu : u.quantity with _ | v
            · simpa [applyPatch, hu] using hx1
            · simpa [applyPatch, hu] using hq v hu
          · rcases hu : u.unit_price with _ | v
            · simpa [applyPatch, hu] using hx2
            · simpa [applyPatch, hu] using hpr v hu
          · rcases hu : u.reorder_level with _ | v
            · simpa [applyPatch, hu] using hx3
            · simpa [applyPatch, hu] using hr v hu

/-- Witness for C1 (amended): creating a product from a request with
non-negative values in an empty store yields a store of non-negative
products. -/
theorem C1_witness :
    ProductNonneg
      { id := "i1", name := "N", sku := "S", category := "C", quantity := 5,
        unit_price := 2, reorder_level := 10, description := none,
        created_at := "t1", updated_at := "t1" } :=
  (C1_nonneg_preserved_given_nonneg_inputs "i1" "t1" "t1" "z" []
      { name := "N", sku := "S", category := "C", quantity := 5, unit_price := 2 }
      {} (by intro p hp; simp at hp)).1
    (by norm_num) (by norm_num) (by norm_num) _ (by decide)

end StackoRobo
